import Mathlib

/-!
Shallow embedding of the dicedb_py client library (files wire.py, io.py,
client.py) and verification of its specification claims.

External effects (the pickle codec, socket recv/connect outcomes, raised
exceptions) are modelled as explicit oracle parameters; every Python
function of the repository becomes a total Lean function over those
oracles, with raised exceptions represented by Except and blocking
represented by Option.none.
-/

namespace DicedbPy

/-! ## wire.py -/

/-- Command message sent to the DiceDB server (wire.py, class Command). -/
structure Command where
  cmd : String
  args : List String
deriving DecidableEq

/-- Enum for response value types (wire.py, class ValueType). -/
inductive ValueType where
  | NIL
  | INT
  | STR
  | FLOAT
  | BYTES
deriving DecidableEq

/-- A Python float value, modelled opaquely by its IEEE-754 bit pattern;
the literal 0.0 has bit pattern 0.  The client never computes with floats,
it only stores and returns them. -/
structure PyFloat where
  bits : Nat
deriving DecidableEq

/-- A dynamically typed Python value as stored in Response.value. -/
inductive PyVal where
  | none
  | int (i : Int)
  | str (s : String)
  | float (f : PyFloat)
  | bytes (b : List Nat)
deriving DecidableEq

/-- Response message received from the DiceDB server (wire.py, class
Response).  Python defaults: err = "", all other fields None. -/
structure Response where
  err : String
  value_type : Option ValueType
  value : PyVal
  attrs : Option (List (String × PyVal))
  v_list : Option (List PyVal)
  v_ss_map : Option (List (String × String))
deriving DecidableEq

/-- Response(err=e) with every other field left at its default. -/
def Response.mkErr (e : String) : Response :=
  ⟨e, Option.none, PyVal.none, Option.none, Option.none, Option.none⟩

/-- Response with no error (a successful reply), fields at defaults. -/
def Response.okDefault : Response :=
  ⟨"", Option.none, PyVal.none, Option.none, Option.none, Option.none⟩

/-- wire.py property v_nil: `self.value_type == ValueType.NIL`. -/
def Response.v_nil (r : Response) : Bool :=
  r.value_type == some ValueType.NIL

/-- wire.py property v_int: `self.value if self.value_type == ValueType.INT
else 0`.  The Python body returns the stored dynamic value unchanged, so the
model returns a PyVal. -/
def Response.v_int (r : Response) : PyVal :=
  if r.value_type == some ValueType.INT then r.value else PyVal.int 0

/-- wire.py property v_str. -/
def Response.v_str (r : Response) : PyVal :=
  if r.value_type == some ValueType.STR then r.value else PyVal.str ""

/-- wire.py property v_float. -/
def Response.v_float (r : Response) : PyVal :=
  if r.value_type == some ValueType.FLOAT then r.value else PyVal.float ⟨0⟩

/-- wire.py property v_bytes. -/
def Response.v_bytes (r : Response) : PyVal :=
  if r.value_type == some ValueType.BYTES then r.value else PyVal.bytes []

/-! ## io.py -/

/-- io.py constant MAX_REQUEST_SIZE = 32 * 1024 * 1024 (32 MiB). -/
def MAX_REQUEST_SIZE : Nat := 32 * 1024 * 1024

/-- io.py constant IO_BUFFER_SIZE = 16 * 1024 (16 KiB). -/
def IO_BUFFER_SIZE : Nat := 16 * 1024

/-- A byte blob, as returned by conn.recv. -/
abbrev Chunk := List Nat

/-- Oracle for the external pickle.loads: either an object (typed as a
Response, following the source annotation) or a raised exception message. -/
abbrev Pickle := Chunk → Except String Response

/-- io.py deserialize: `pickle.loads(data)` with every raised exception
turned into an error Response. -/
def deserialize (pk : Pickle) (data : Chunk) : Response :=
  match pk data with
  | Except.ok r => r
  | Except.error e => Response.mkErr ("Failed to deserialize response: " ++ e)

/-- One conn.recv outcome: a returned chunk, or a raised socket.error. -/
abbrev RecvOutcome := Except String Chunk

/-- The tail of io.py read after the loop breaks:
`if not result: return Response(err=...); return deserialize(result)`. -/
def readFinish (pk : Pickle) (result : Chunk) : Option Response :=
  some (if result.length = 0 then Response.mkErr "Empty response or connection closed"
        else deserialize pk result)

/-- The `while True` loop of io.py read, with `result` the bytes
accumulated so far and the list holding the successive conn.recv outcomes.
An exhausted outcome list means the next recv would block forever
(Option.none). -/
def readLoop (pk : Pickle) : List RecvOutcome → Chunk → Option Response
  | [], _result => Option.none
  | o :: rest, result =>
    match o with
    | Except.error e => some (Response.mkErr e)
    | Except.ok chunk =>
      if chunk.length = 0 then readFinish pk result
      else if result.length + chunk.length > MAX_REQUEST_SIZE then
        some (Response.mkErr "Request too large")
      else
        let result2 := result ++ chunk
        if chunk.length < IO_BUFFER_SIZE then readFinish pk result2
        else readLoop pk rest result2

/-- io.py read: run the receive loop with an empty accumulator. -/
def read (pk : Pickle) (recvs : List RecvOutcome) : Option Response :=
  readLoop pk recvs []

/-! ## client.py -/

/-- Does pattern p occur at the start of l? (helper for Python `in`). -/
def leadMatch : List Char → List Char → Bool
  | [], _ => true
  | _ :: _, [] => false
  | p :: ps, c :: cs => p == c && leadMatch ps cs

/-- Does pattern p occur contiguously anywhere in l? -/
def hasSub (p : List Char) : List Char → Bool
  | [] => leadMatch p []
  | c :: cs => leadMatch p (c :: cs) || hasSub p cs

/-- Python `pat in hay` on strings. -/
def pyIn (pat hay : String) : Bool := hasSub pat.data hay.data

/-- The guard of check_and_reconnect:
`"EOF" in error or "Broken pipe" in error`. -/
def isDeadConnErr (error : String) : Bool :=
  pyIn "EOF" error || pyIn "Broken pipe" error

/-- The channel a message is sent on: the control socket self.conn or the
subscription socket self.watch_conn. -/
inductive Chan where
  | control
  | watch
deriving DecidableEq

/-- Client state we track: the identity token, a generation counter for the
control socket self.conn (bumped each time _connect assigns a fresh
socket), and generation counters for the watch socket and watch event
(None = attribute is None). -/
structure ClientSt where
  id : String
  conn : Nat
  watch_conn : Option Nat
  watch_ch : Option Nat
deriving DecidableEq

/-- Oracle for one reconnect attempt inside check_and_reconnect: either
self._connect() raised, or the dial succeeded and the re-authentication
_fire returned the given Response. -/
inductive ReconnectOutcome where
  | dialRaise (msg : String)
  | handshakeResp (r : Response)
deriving DecidableEq

/-- The handshake command check_and_reconnect re-sends (client.py line
113): always `Command(cmd="HANDSHAKE", args=[self.id, "command"])`, on
self.conn, whichever caller triggered the reconnect. -/
def reconnectHandshakeCmd (id : String) : Command :=
  ⟨"HANDSHAKE", [id, "command"]⟩

/-- Result of check_and_reconnect: the returned Bool, the updated client
state, and the handshake messages it sent (with their channel). -/
structure CrcResult where
  ok : Bool
  st : ClientSt
  sent : List (Chan × Command)
deriving DecidableEq

/-- client.py check_and_reconnect.  On a dead-connection error it closes
self.conn, dials a fresh control socket (bumping the conn generation) and
re-sends the "command"-tagged handshake on it; any exception or a handshake
error Response yields False. -/
def check_and_reconnect (st : ClientSt) (error : String) (o : ReconnectOutcome) :
    CrcResult :=
  if isDeadConnErr error then
    match o with
    | ReconnectOutcome.dialRaise _m => ⟨false, { st with conn := st.conn + 1 }, []⟩
    | ReconnectOutcome.handshakeResp r =>
      let st2 := { st with conn := st.conn + 1 }
      if r.err ≠ "" then ⟨false, st2, [(Chan.control, reconnectHandshakeCmd st.id)]⟩
      else ⟨true, st2, [(Chan.control, reconnectHandshakeCmd st.id)]⟩
  else ⟨false, st, []⟩

instance {ε α : Type} [DecidableEq ε] [DecidableEq α] : DecidableEq (Except ε α) :=
  fun x y =>
    match x, y with
    | Except.ok a, Except.ok b =>
      if h : a = b then isTrue (by rw [h])
      else isFalse (by intro hc; cases hc; exact h rfl)
    | Except.ok _, Except.error _ => isFalse (by intro hc; cases hc)
    | Except.error _, Except.ok _ => isFalse (by intro hc; cases hc)
    | Except.error a, Except.error b =>
      if h : a = b then isTrue (by rw [h])
      else isFalse (by intro hc; cases hc; exact h rfl)

/-- Oracle for one _fire request/response cycle of the fire loop: whether
io.write succeeded, the recv outcomes consumed by io.read, and the
reconnect outcome consulted if this cycle fails with a dead-connection
error. -/
structure Round where
  writeOk : Bool
  recvs : List RecvOutcome
  reconnect : ReconnectOutcome
deriving DecidableEq

/-- client.py _fire: a write failure yields the fixed error Response,
otherwise the result of io.read.  Option.none = blocked in recv. -/
def fireCycle (pk : Pickle) (writeOk : Bool) (recvs : List RecvOutcome) :
    Option Response :=
  if writeOk then read pk recvs
  else some (Response.mkErr "Failed to write command to socket")

/-- Observable actions of one (possibly recursive) fire call: how many
reconnect attempts check_and_reconnect actually performed, how many times
the original command was re-fired, and the handshakes sent while
reconnecting. -/
structure FireTrace where
  reconnects : Nat
  retries : Nat
  sent : List (Chan × Command)
deriving DecidableEq

/-- client.py fire: run one cycle; on an error Response, consult
check_and_reconnect and, if it succeeded, recurse on the same command
(`return self.fire(cmd)`).  Each list element feeds one cycle; an
exhausted list means the next cycle would block (Option.none). -/
def fire (pk : Pickle) : ClientSt → Command → List Round →
    Option Response × ClientSt × FireTrace
  | st, _cmd, [] => (Option.none, st, ⟨0, 0, []⟩)
  | st, cmd, r :: rest =>
    match fireCycle pk r.writeOk r.recvs with
    | Option.none => (Option.none, st, ⟨0, 0, []⟩)
    | some result =>
      if result.err ≠ "" then
        let c := check_and_reconnect st result.err r.reconnect
        let att := if isDeadConnErr result.err then 1 else 0
        if c.ok then
          match fire pk c.st cmd rest with
          | (res, st2, tr) =>
            (res, st2, ⟨att + tr.reconnects, 1 + tr.retries, c.sent ++ tr.sent⟩)
        else (some result, c.st, ⟨att, 0, c.sent⟩)
      else (some result, st, ⟨0, 0, []⟩)

/-- Python str.strip(): drop leading and trailing whitespace. -/
def pyStrip (l : List Char) : List Char :=
  (((l.dropWhile Char.isWhitespace).reverse).dropWhile Char.isWhitespace).reverse

/-- Python str.split() with no argument: split on runs of whitespace,
never producing empty tokens.  acc holds the current token reversed. -/
def pySplitAux : List Char → List Char → List String
  | [], acc => if acc.isEmpty then [] else [String.mk acc.reverse]
  | c :: cs, acc =>
    if c.isWhitespace then
      if acc.isEmpty then pySplitAux cs []
      else String.mk acc.reverse :: pySplitAux cs []
    else pySplitAux cs (c :: acc)

/-- The token list fire_string computes: `cmd_str.strip().split()`. -/
def pyTokens (s : String) : List String :=
  pySplitAux (pyStrip s.data) []

/-- A raised Python exception reaching the caller of fire_string. -/
inductive PyExn where
  | indexError
deriving DecidableEq

/-- client.py fire_string: strip, split, take tokens[0] as the command
name (IndexError when there is no token) and tokens[1:] as arguments when
len(tokens) > 1, then delegate to fire. -/
def fire_string (pk : Pickle) (st : ClientSt) (cmd_str : String)
    (o : List Round) : Except PyExn (Option Response × ClientSt × FireTrace) :=
  match pyTokens cmd_str with
  | [] => Except.error PyExn.indexError
  | t :: ts =>
    let args := if ts.isEmpty then [] else ts
    Except.ok (fire pk st ⟨t, args⟩ o)

/-- How one _watch loop iteration terminates or proceeds. -/
inductive WatchExit where
  | stopSignal
  | errorExit
  | pending
deriving DecidableEq

/-- Oracle for one iteration of the _watch loop: the value of
watch_ch.is_set() at the top, the outcome of the dice_io.read call (.error
= the call raised with that message, .ok = it ran over these recv
outcomes), and the reconnect oracle used if the except branch runs. -/
structure WStep where
  stopSet : Bool
  readRes : Except String (List RecvOutcome)
  reconnect : ReconnectOutcome
deriving DecidableEq

/-- Everything observable about a _watch run: the queue contents, the
final client state, the handshakes sent during reconnects, and how the
run ended (.pending = the oracle ran out with the loop still live). -/
structure WatchOut where
  queue : List Response
  st : ClientSt
  sent : List (Chan × Command)
  exitKind : WatchExit
deriving DecidableEq

/-- client.py _watch: while the stop event is unset, read one Response
from the watch connection and append it to the queue; if the read call
raises, run check_and_reconnect and, when it fails, append a terminal
"Watch error" Response and break. -/
def watchLoop (pk : Pickle) : ClientSt → List Response → List WStep → WatchOut
  | st, q, [] => ⟨q, st, [], WatchExit.pending⟩
  | st, q, s :: rest =>
    if s.stopSet then ⟨q, st, [], WatchExit.stopSignal⟩
    else
      match s.readRes with
      | Except.ok recvs =>
        match read pk recvs with
        | Option.none => ⟨q, st, [], WatchExit.pending⟩
        | some resp => watchLoop pk st (q ++ [resp]) rest
      | Except.error msg =>
        let c := check_and_reconnect st msg s.reconnect
        if c.ok then
          match watchLoop pk c.st q rest with
          | out => ⟨out.queue, out.st, c.sent ++ out.sent, out.exitKind⟩
        else
          ⟨q ++ [Response.mkErr ("Watch error: " ++ msg)], c.st, c.sent,
            WatchExit.errorExit⟩

/-- What client.py watch_ch returns: the first call returns the tuple
(self.watch_ch, self.watch_queue); a call made while the subscription is
already open returns bare self.watch_ch. -/
inductive WatchChRet where
  | pair (ev : Nat) (queueId : Nat)
  | eventOnly (ev : Nat)
deriving DecidableEq

/-- Result of one watch_ch call: the returned value or the raised
ConnectionError message, the updated state, the handshakes sent, and
whether a new background thread was started. -/
structure WatchChOut where
  result : Except String WatchChRet
  st : ClientSt
  sent : List (Chan × Command)
  startedThread : Bool
deriving DecidableEq

/-- client.py watch_ch.  dialOk is the oracle for dialing the second
socket, hsResp the Response of the watch handshake _fire, and newEv,
newQueue, newConn name the fresh Event, queue and socket created on the
open path. -/
def watch_ch_op (st : ClientSt) (dialOk : Except String Unit) (hsResp : Response)
    (newEv newQueue newConn : Nat) : WatchChOut :=
  match st.watch_ch with
  | some ev => ⟨Except.ok (WatchChRet.eventOnly ev), st, [], false⟩
  | Option.none =>
    match dialOk with
    | Except.error m =>
      ⟨Except.error ("Failed to setup watch connection: " ++ m),
        { st with watch_ch := Option.none }, [], false⟩
    | Except.ok _ =>
      let st2 := { st with watch_ch := some newEv, watch_conn := some newConn }
      let hs := (Chan.watch, Command.mk "HANDSHAKE" [st.id, "watch"])
      if hsResp.err ≠ "" then
        ⟨Except.error ("Failed to setup watch connection: " ++
            "Could not complete the watch handshake: " ++ hsResp.err),
          { st2 with watch_ch := Option.none }, [hs], false⟩
      else
        ⟨Except.ok (WatchChRet.pair newEv newQueue), st2, [hs], true⟩

/-- client.py Client.__init__ after options are applied (clientId is the
identity token, possibly overridden by WithID): _connect, then
fire(HANDSHAKE [id, "command"]); an error in the handshake Response raises
ConnectionError.  The .error side of the result is the raised
ConnectionError message; Option.none = blocked. -/
def clientInit (clientId : String) (pk : Pickle) (dial : Except String Unit)
    (hsRounds : List Round) (host : String) (port : Nat) :
    Option (Except String ClientSt) :=
  match dial with
  | Except.error m =>
    some (Except.error ("Failed to connect to " ++ host ++ ":" ++
      toString port ++ ": " ++ m))
  | Except.ok _ =>
    let st0 : ClientSt := ⟨clientId, 0, Option.none, Option.none⟩
    match fire pk st0 (Command.mk "HANDSHAKE" [clientId, "command"]) hsRounds with
    | (Option.none, _, _) => Option.none
    | (some r, st, _) =>
      if r.err ≠ "" then
        some (Except.error ("Could not complete the handshake: " ++ r.err))
      else some (Except.ok st)

/-! ## Concrete fixtures used by witnesses and counterexamples -/

/-- A pickle oracle that decodes every blob to the default success
Response. -/
def pk0 : Pickle := fun _ => Except.ok Response.okDefault

/-- A pickle oracle that always raises. -/
def pkBad : Pickle := fun _ => Except.error "invalid load key"

/-- A client state right after a successful construction. -/
def stA : ClientSt := ⟨"cli-1", 0, some 0, Option.none⟩

/-- A fire cycle that fails with a dead-connection read error and whose
reconnect attempt succeeds. -/
def rFail : Round :=
  ⟨true, [Except.error "EOF"], ReconnectOutcome.handshakeResp Response.okDefault⟩

/-- A fire cycle that succeeds. -/
def rOk : Round :=
  ⟨true, [Except.ok [1]], ReconnectOutcome.handshakeResp Response.okDefault⟩

/-- A fire cycle that fails with a dead-connection read error and whose
reconnect handshake is rejected. -/
def rFailBad : Round :=
  ⟨true, [Except.error "EOF"], ReconnectOutcome.handshakeResp (Response.mkErr "denied")⟩

/-- A fire cycle whose read yields a server rejection (an error Response
that does not indicate a dead connection). -/
def rDenied : Round :=
  ⟨true, [Except.error "denied"], ReconnectOutcome.handshakeResp Response.okDefault⟩

/-- A chunk one byte past the 32 MiB limit. -/
def bigChunk : Chunk := List.replicate (MAX_REQUEST_SIZE + 1) 0

/-! ## Claim theorems -/

/-- Claim C8: each typed value accessor of Response returns the stored
value when the type tag matches its kind and a zero/default value when it
does not, and v_nil is true exactly when the tag is NIL. -/
theorem C8_typed_accessors (r : Response) :
    (r.value_type = some ValueType.INT → r.v_int = r.value) ∧
    (r.value_type ≠ some ValueType.INT → r.v_int = PyVal.int 0) ∧
    (r.value_type = some ValueType.STR → r.v_str = r.value) ∧
    (r.value_type ≠ some ValueType.STR → r.v_str = PyVal.str "") ∧
    (r.value_type = some ValueType.FLOAT → r.v_float = r.value) ∧
    (r.value_type ≠ some ValueType.FLOAT → r.v_float = PyVal.float ⟨0⟩) ∧
    (r.value_type = some ValueType.BYTES → r.v_bytes = r.value) ∧
    (r.value_type ≠ some ValueType.BYTES → r.v_bytes = PyVal.bytes []) ∧
    (r.v_nil = true ↔ r.value_type = some ValueType.NIL) := by
  refine ⟨?_, ?_, ?_, ?_, ?_, ?_, ?_, ?_, ?_⟩ <;>
    simp [Response.v_int, Response.v_str, Response.v_float, Response.v_bytes,
      Response.v_nil]
  all_goals intro h
  all_goals simp [h]

/-- Witness for C8 at concrete Responses. -/
theorem C8_typed_accessors_witness :
    (Response.mk "" (some ValueType.INT) (PyVal.int 7) Option.none Option.none
        Option.none).v_int = PyVal.int 7 ∧
    (Response.mk "" (some ValueType.STR) (PyVal.str "x") Option.none Option.none
        Option.none).v_int = PyVal.int 0 ∧
    (Response.mk "" (some ValueType.NIL) PyVal.none Option.none Option.none
        Option.none).v_nil = true := by
  refine ⟨(C8_typed_accessors _).1 rfl, ?_, ?_⟩
  · exact (C8_typed_accessors _).2.1 (by decide)
  · exact ((C8_typed_accessors _).2.2.2.2.2.2.2.2).mpr rfl

/-- Claim C6: deserialize never fails the caller; when the pickle loader
raises, it returns a Response carrying the decoding-failure message, and
when the loader succeeds it returns the loaded Response. -/
theorem C6_deserialize_total (pk : Pickle) (data : Chunk) :
    (∀ e, pk data = Except.error e →
      deserialize pk data =
        Response.mkErr ("Failed to deserialize response: " ++ e)) ∧
    (∀ r, pk data = Except.ok r → deserialize pk data = r) := by
  constructor
  · intro e h
    simp [deserialize, h]
  · intro r h
    simp [deserialize, h]

/-- Witness for C6: a malformed blob under the always-raising loader. -/
theorem C6_deserialize_total_witness :
    deserialize pkBad [0] =
      Response.mkErr ("Failed to deserialize response: " ++ "invalid load key") :=
  (C6_deserialize_total pkBad [0]).1 "invalid load key" rfl

/-- Claim C7: read fails with the "Request too large" error Response as
soon as accumulating the next (non-empty) chunk would push the cumulative
size past MAX_REQUEST_SIZE (32 MiB), and a zero-byte first chunk with no
accumulated data yields the connection-closed error Response. -/
theorem C7_read_limits :
    (∀ (pk : Pickle) (rest : List RecvOutcome) (result chunk : Chunk),
      chunk ≠ [] →
      result.length + chunk.length > MAX_REQUEST_SIZE →
      readLoop pk (Except.ok chunk :: rest) result =
        some (Response.mkErr "Request too large")) ∧
    (∀ (pk : Pickle) (rest : List RecvOutcome),
      read pk (Except.ok [] :: rest) =
        some (Response.mkErr "Empty response or connection closed")) := by
  constructor
  · intro pk rest result chunk hne hgt
    have h0 : ¬ chunk.length = 0 := by
      simpa [List.length_eq_zero] using hne
    simp [readLoop, h0, hgt]
  · intro pk rest
    simp [read, readLoop, readFinish]

/-- Witness for C7: an oversized chunk and a closed connection. -/
theorem C7_read_limits_witness :
    readLoop pkBad [Except.ok bigChunk] [] =
      some (Response.mkErr "Request too large") ∧
    read pkBad [Except.ok []] =
      some (Response.mkErr "Empty response or connection closed") := by
  constructor
  · refine C7_read_limits.1 pkBad [] [] bigChunk ?_ ?_
    · have h : bigChunk.length = MAX_REQUEST_SIZE + 1 := by
        simp [bigChunk]
      intro hc
      rw [hc] at h
      simp at h
    · have h : bigChunk.length = MAX_REQUEST_SIZE + 1 := by
        simp [bigChunk]
      simp [h]
  · exact C7_read_limits.2 pkBad []

/-- Claim C9: when the input has at least one whitespace-delimited token,
fire_string builds the Command from the first token and the remaining
tokens, in order, and returns the result of delegating it to fire. -/
theorem C9_fire_string_delegates (pk : Pickle) (st : ClientSt) (o : List Round)
    (s : String) (t : String) (ts : List String) (h : pyTokens s = t :: ts) :
    fire_string pk st s o = Except.ok (fire pk st ⟨t, ts⟩ o) := by
  unfold fire_string
  rw [h]
  cases ts with
  | nil => simp
  | cons a l => simp

/-- Witness for C9 on the string "GET key1". -/
theorem C9_fire_string_delegates_witness :
    fire_string pk0 stA "GET key1" [] =
      Except.ok (fire pk0 stA ⟨"GET", ["key1"]⟩ []) :=
  C9_fire_string_delegates pk0 stA [] "GET key1" "GET" ["key1"] (by decide)

/-- Dropping while p from a list all of whose elements satisfy p leaves
nothing. -/
theorem dropWhile_all_nil {p : Char → Bool} :
    ∀ l : List Char, l.all p = true → l.dropWhile p = []
  | [], _ => rfl
  | c :: cs, h => by
    have h1 : p c = true ∧ cs.all p = true := by simpa using h
    simp [List.dropWhile, h1.1, dropWhile_all_nil cs h1.2]

/-- Claim C10: fire_string applied to an empty or whitespace-only string
has no token to use as the command name and raises IndexError instead of
returning a Response. -/
theorem C10_fire_string_empty_raises (pk : Pickle) (st : ClientSt)
    (o : List Round) (s : String) (h : s.data.all Char.isWhitespace = true) :
    fire_string pk st s o = Except.error PyExn.indexError := by
  have hstrip : pyStrip s.data = [] := by
    unfold pyStrip
    rw [dropWhile_all_nil _ h]
    rfl
  unfold fire_string pyTokens
  rw [hstrip]
  rfl

/-- Witness for C10: the empty string and a whitespace-only string. -/
theorem C10_fire_string_empty_raises_witness :
    fire_string pk0 stA "" [] = Except.error PyExn.indexError ∧
    fire_string pk0 stA "  " [] = Except.error PyExn.indexError :=
  ⟨C10_fire_string_empty_raises pk0 stA [] "" (by decide),
   C10_fire_string_empty_raises pk0 stA [] "  " (by decide)⟩

/-- Claim C5: mid-session transport and handshake failures come back in
the Response's err field and are never raised past fire (a failed write, a
socket error on read, and a rejected reconnect handshake each yield a
Response), while a construction-time handshake failure makes the
constructor raise ConnectionError; a clean handshake constructs the
client. -/
theorem C5_failure_reporting :
    (∀ (id : String) (pk : Pickle) (rounds : List Round) (host : String)
       (port : Nat) (r : Response) (st : ClientSt) (tr : FireTrace),
      fire pk ⟨id, 0, Option.none, Option.none⟩
          (Command.mk "HANDSHAKE" [id, "command"]) rounds = (some r, st, tr) →
      r.err ≠ "" →
      clientInit id pk (Except.ok ()) rounds host port =
        some (Except.error ("Could not complete the handshake: " ++ r.err))) ∧
    (∀ (id : String) (pk : Pickle) (rounds : List Round) (host : String)
       (port : Nat) (r : Response) (st : ClientSt) (tr : FireTrace),
      fire pk ⟨id, 0, Option.none, Option.none⟩
          (Command.mk "HANDSHAKE" [id, "command"]) rounds = (some r, st, tr) →
      r.err = "" →
      clientInit id pk (Except.ok ()) rounds host port =
        some (Except.ok st)) ∧
    (∀ (pk : Pickle) (st : ClientSt) (cmd : Command) (recvs : List RecvOutcome)
       (ro : ReconnectOutcome) (rest : List Round),
      (fire pk st cmd (⟨false, recvs, ro⟩ :: rest)).1 =
        some (Response.mkErr "Failed to write command to socket")) ∧
    (∀ (pk : Pickle) (st : ClientSt) (cmd : Command) (e : String)
       (ro : ReconnectOutcome) (rest : List Round),
      isDeadConnErr e = false → e ≠ "" →
      (fire pk st cmd (⟨true, [Except.error e], ro⟩ :: rest)).1 =
        some (Response.mkErr e)) ∧
    (∀ (pk : Pickle) (st : ClientSt) (cmd : Command) (e : String)
       (rErr : Response) (rest : List Round),
      isDeadConnErr e = true → rErr.err ≠ "" →
      (fire pk st cmd
          (⟨true, [Except.error e], ReconnectOutcome.handshakeResp rErr⟩ :: rest)).1 =
        some (Response.mkErr e)) := by
  refine ⟨?_, ?_, ?_, ?_, ?_⟩
  · intro id pk rounds host port r st tr hfire herr
    simp [clientInit, hfire, herr]
  · intro id pk rounds host port r st tr hfire herr
    simp [clientInit, hfire, herr]
  · intro pk st cmd recvs ro rest
    have hdead :
        isDeadConnErr (Response.mkErr "Failed to write command to socket").err
          = false := by decide
    simp [fire, fireCycle, check_and_reconnect, Response.mkErr] at hdead ⊢
    simp [hdead]
  · intro pk st cmd e ro rest hdead hne
    simp [fire, fireCycle, read, readLoop, check_and_reconnect, Response.mkErr,
      hne, hdead]
  · intro pk st cmd e rErr rest hdead hne
    have hne2 : (Response.mkErr e).err ≠ "" := by
      simp [Response.mkErr]
      intro hc
      rw [hc] at hdead
      revert hdead
      decide
    simp [fire, fireCycle, read, readLoop, check_and_reconnect, Response.mkErr,
      hne2, hdead, hne]
    split <;> rfl

/-- Witness for C5: a rejected construction-time handshake raises
ConnectionError; a failed write, a non-dead socket error, and a dead
error with a rejected reconnect handshake each come back as a Response. -/
theorem C5_failure_reporting_witness :
    clientInit "cli-1" pk0 (Except.ok ()) [rDenied] "localhost" 7379 =
      some (Except.error ("Could not complete the handshake: " ++ "denied")) ∧
    (fire pk0 stA (Command.mk "PING" [])
        [⟨false, [], ReconnectOutcome.handshakeResp Response.okDefault⟩]).1 =
      some (Response.mkErr "Failed to write command to socket") ∧
    (fire pk0 stA (Command.mk "PING" [])
        [⟨true, [Except.error "timed out"],
          ReconnectOutcome.handshakeResp Response.okDefault⟩]).1 =
      some (Response.mkErr "timed out") ∧
    (fire pk0 stA (Command.mk "PING" []) [rFailBad]).1 =
      some (Response.mkErr "EOF") := by
  refine ⟨?_, ?_, ?_, ?_⟩
  · exact C5_failure_reporting.1 "cli-1" pk0 [rDenied] "localhost" 7379
      (Response.mkErr "denied") ⟨"cli-1", 0, Option.none, Option.none⟩
      ⟨0, 0, []⟩ (by decide) (by decide)
  · exact C5_failure_reporting.2.2.1 pk0 stA (Command.mk "PING" []) []
      (ReconnectOutcome.handshakeResp Response.okDefault) []
  · exact C5_failure_reporting.2.2.2.1 pk0 stA (Command.mk "PING" [])
      "timed out" (ReconnectOutcome.handshakeResp Response.okDefault) []
      (by decide) (by decide)
  · exact C5_failure_reporting.2.2.2.2 pk0 stA (Command.mk "PING" [])
      "EOF" (Response.mkErr "denied") [] (by decide) (by decide)

/-- The success condition of check_and_reconnect, which depends only on
the error message and the reconnect oracle: the error must indicate a dead
connection and the re-dial plus handshake must succeed. -/
def crcOK (error : String) (o : ReconnectOutcome) : Bool :=
  isDeadConnErr error &&
    (match o with
     | ReconnectOutcome.dialRaise _ => false
     | ReconnectOutcome.handshakeResp r => r.err == "")

/-- check_and_reconnect returns crcOK of its error and oracle. -/
theorem check_and_reconnect_ok (st : ClientSt) (e : String)
    (o : ReconnectOutcome) : (check_and_reconnect st e o).ok = crcOK e o := by
  rcases o with m | r
  · by_cases h : isDeadConnErr e = true <;> simp [check_and_reconnect, crcOK, h]
  · by_cases h : isDeadConnErr e = true
    · by_cases h2 : r.err = "" <;> simp [check_and_reconnect, crcOK, h, h2]
    · simp [check_and_reconnect, crcOK, h]

/-- Does this round make fire retry?  True when the cycle completes with
an error Response whose message indicates a dead connection and the
subsequent reconnect attempt succeeds. -/
def triggersRetry (pk : Pickle) (r : Round) : Bool :=
  match fireCycle pk r.writeOk r.recvs with
  | Option.none => false
  | some resp => (resp.err != "") && crcOK resp.err r.reconnect

/-- The number of leading rounds that each make fire retry. -/
def retryCount (pk : Pickle) (rounds : List Round) : Nat :=
  (rounds.takeWhile (triggersRetry pk)).length

/-- Claim C1 (amended): each request/response cycle of fire that fails
with a dead-connection error triggers exactly one reconnect attempt; when
the reconnect succeeds, fire recursively re-fires the same command, so one
top-level fire call retries once per consecutive recoverable failure,
without an upper bound; the first cycle that does not trigger a retry is
final: its Response is returned as is (in particular, when its reconnect
fails, fire returns that cycle's failure Response), and the total number
of reconnect attempts is the number of retried cycles plus one more
exactly when the final Response still carries a dead-connection error. -/
theorem C1_fire_reconnect_retry (pk : Pickle) :
    ∀ (rounds : List Round) (st : ClientSt) (cmd : Command),
      (fire pk st cmd rounds).2.2.retries = retryCount pk rounds ∧
      (∀ r rest, rounds.drop (retryCount pk rounds) = r :: rest →
        ∀ resp, fireCycle pk r.writeOk r.recvs = some resp →
          (fire pk st cmd rounds).1 = some resp ∧
          (fire pk st cmd rounds).2.2.reconnects =
            retryCount pk rounds +
              (if isDeadConnErr resp.err then 1 else 0)) := by
  intro rounds
  induction rounds with
  | nil =>
    intro st cmd
    constructor
    · simp [fire, retryCount]
    · intro r rest h
      simp [retryCount] at h
  | cons hd tl ih =>
    intro st cmd
    by_cases htr : triggersRetry pk hd = true
    · -- this round retries: fire recurses on the tail
      rcases hfc : fireCycle pk hd.writeOk hd.recvs with _ | resp
      · rw [triggersRetry, hfc] at htr
        simp at htr
      · rw [triggersRetry, hfc] at htr
        have herr : resp.err ≠ "" := by
          have := (Bool.and_eq_true _ _).mp htr |>.1
          simpa using this
        have hcrc : crcOK resp.err hd.reconnect = true :=
          ((Bool.and_eq_true _ _).mp htr).2
        have hok : (check_and_reconnect st resp.err hd.reconnect).ok = true := by
          rw [check_and_reconnect_ok]
          exact hcrc
        have hdead : isDeadConnErr resp.err = true :=
          ((Bool.and_eq_true _ _).mp hcrc).1
        have hcount : retryCount pk (hd :: tl) = retryCount pk tl + 1 := by
          have htw : triggersRetry pk hd = true := by
            rw [triggersRetry, hfc]
            exact htr
          simp [retryCount, List.takeWhile_cons, htw]
        have hfire :
            fire pk st cmd (hd :: tl) =
              (match fire pk (check_and_reconnect st resp.err hd.reconnect).st
                  cmd tl with
                | (res, st2, tr) =>
                  (res, st2,
                    ⟨(if isDeadConnErr resp.err then 1 else 0) + tr.reconnects,
                      1 + tr.retries,
                      (check_and_reconnect st resp.err hd.reconnect).sent ++
                        tr.sent⟩)) := by
          simp [fire, hfc, herr, hok]
        rcases hrec : fire pk (check_and_reconnect st resp.err hd.reconnect).st
            cmd tl with ⟨res, st2, tr⟩
        have ihspec := ih (check_and_reconnect st resp.err hd.reconnect).st cmd
        constructor
        · rw [hfire, hrec]
          have : tr.retries = retryCount pk tl := by
            have := ihspec.1
            rw [hrec] at this
            exact this
          simp [this, hcount]
          omega
        · intro r rest hdrop resp2 hfc2
          rw [hcount] at hdrop
          rw [List.drop_succ_cons] at hdrop
          have ihres := ihspec.2 r rest hdrop resp2 hfc2
          rw [hrec] at ihres
          constructor
          · rw [hfire, hrec]
            exact ihres.1
          · rw [hfire, hrec]
            simp [hdead, hcount]
            have := ihres.2
            simp at this
            omega
    · -- this round is final: fire returns its cycle's outcome
      have hcount0 : retryCount pk (hd :: tl) = 0 := by
        simp [retryCount, List.takeWhile_cons, htr]
      constructor
      · rw [hcount0]
        rcases hfc : fireCycle pk hd.writeOk hd.recvs with _ | resp
        · simp [fire, hfc]
        · by_cases herr : resp.err = ""
          · simp [fire, hfc, herr]
          · have hok : (check_and_reconnect st resp.err hd.reconnect).ok = false := by
              rw [check_and_reconnect_ok]
              rcases hcrc : crcOK resp.err hd.reconnect with _ | _
              · rfl
              · exfalso
                apply htr
                rw [triggersRetry, hfc]
                simp [herr, hcrc]
            simp [fire, hfc, herr, hok]
      · intro r rest hdrop resp hfc2
        rw [hcount0] at hdrop
        simp at hdrop
        rcases hdrop with ⟨hr, hrest⟩
        subst hr
        subst hrest
        rw [hcount0]
        by_cases herr : resp.err = ""
        · have hdead : isDeadConnErr resp.err = false := by
            rw [herr]
            decide
          constructor
          · simp [fire, hfc2, herr]
          · simp [fire, hfc2, herr]
            decide
        · have hok : (check_and_reconnect st resp.err hd.reconnect).ok = false := by
            rw [check_and_reconnect_ok]
            rcases hcrc : crcOK resp.err hd.reconnect with _ | _
            · rfl
            · exfalso
              apply htr
              rw [triggersRetry, hfc2]
              simp [herr, hcrc]
          constructor
          · simp [fire, hfc2, herr, hok]
          · simp [fire, hfc2, herr, hok]

/-- Counterexample to claim C1 as stated: with two consecutive cycles
that fail with "EOF" and reconnect successfully before a third succeeds,
a single top-level fire call retries the command twice — fire is
self-recursive, so the number of retries per call is not bounded by one. -/
theorem C1_counterexample_two_retries :
    ¬ (fire pk0 stA (Command.mk "PING" []) [rFail, rFail, rOk]).2.2.retries ≤ 1 := by
  decide

/-- Witness for the amended C1 theorem: a single cycle failing with "EOF"
whose reconnect handshake is rejected is final — fire returns that
cycle's failure Response and made exactly one reconnect attempt. -/
theorem C1_fire_reconnect_retry_witness :
    (fire pk0 stA (Command.mk "PING" []) [rFailBad]).2.2.retries =
      retryCount pk0 [rFailBad] ∧
    (fire pk0 stA (Command.mk "PING" []) [rFailBad]).1 =
      some (Response.mkErr "EOF") ∧
    (fire pk0 stA (Command.mk "PING" []) [rFailBad]).2.2.reconnects =
      retryCount pk0 [rFailBad] +
        (if isDeadConnErr (Response.mkErr "EOF").err then 1 else 0) := by
  have h := C1_fire_reconnect_retry pk0 [rFailBad] stA (Command.mk "PING" [])
  have h2 := h.2 rFailBad [] (by decide) (Response.mkErr "EOF") (by decide)
  exact ⟨h.1, h2.1, h2.2⟩

/-- Claim C2 (code bug, watch path): when the watch loop's read raises a
dead-connection error, the reconnect it triggers re-dials the control
socket and replays the handshake tagged "command" on it — the watch
socket is left untouched and no "watch"-tagged handshake is sent, though
the construction-time identity token is preserved. -/
theorem C2_watch_reconnect_wrong_tag :
    (watchLoop pk0 stA []
        [⟨false, Except.error "EOF",
          ReconnectOutcome.handshakeResp Response.okDefault⟩]).sent =
      [(Chan.control, Command.mk "HANDSHAKE" ["cli-1", "command"])] ∧
    (watchLoop pk0 stA []
        [⟨false, Except.error "EOF",
          ReconnectOutcome.handshakeResp Response.okDefault⟩]).st.watch_conn =
      stA.watch_conn ∧
    (watchLoop pk0 stA []
        [⟨false, Except.error "EOF",
          ReconnectOutcome.handshakeResp Response.okDefault⟩]).st.conn =
      stA.conn + 1 ∧
    Command.mk "HANDSHAKE" ["cli-1", "command"] ≠
      Command.mk "HANDSHAKE" ["cli-1", "watch"] := by
  decide

/-- A watch-loop iteration whose read observes the peer-closed watch
connection: recv returns zero bytes, so io.read returns the
connection-closed error Response (it does not raise). -/
def wStepClosed : WStep :=
  ⟨false, Except.ok [Except.ok []],
    ReconnectOutcome.handshakeResp Response.okDefault⟩

/-- A watch-loop iteration that reads one well-formed event. -/
def wStepEvent : WStep :=
  ⟨false, Except.ok [Except.ok [1]],
    ReconnectOutcome.handshakeResp Response.okDefault⟩

/-- Claim C3 (code bug): a failed read on the watch connection — the peer
closed the socket, so io.read yields its connection-closed error Response
instead of raising — is appended to the watch queue as an ordinary event;
the loop sends no reconnect handshake, keeps its state, stays live
(pending, and indeed processes the next event), and never reaches the
terminal-error-and-exit path. -/
theorem C3_watch_read_failure_not_terminal :
    (watchLoop pk0 stA [] [wStepClosed, wStepEvent]).queue =
      [Response.mkErr "Empty response or connection closed",
        Response.okDefault] ∧
    (watchLoop pk0 stA [] [wStepClosed, wStepEvent]).exitKind =
      WatchExit.pending ∧
    (watchLoop pk0 stA [] [wStepClosed, wStepEvent]).sent = [] ∧
    (watchLoop pk0 stA [] [wStepClosed, wStepEvent]).st = stA := by
  decide

/-- The client state after the first successful watch_ch call. -/
def stOpen : ClientSt :=
  (watch_ch_op stA (Except.ok ()) Response.okDefault 7 3 5).st

/-- Claim C4 (code bug): the first watch_ch call returns the (event,
queue) pair, but a second call made while the subscription is open
returns bare self.watch_ch — only the stop Event, not the pair the first
call returned — although it indeed dials no new connection, sends no
handshake and starts no second loop. -/
theorem C4_second_open_returns_event_only :
    (watch_ch_op stA (Except.ok ()) Response.okDefault 7 3 5).result =
      Except.ok (WatchChRet.pair 7 3) ∧
    (watch_ch_op stOpen (Except.ok ()) Response.okDefault 8 4 6).result =
      Except.ok (WatchChRet.eventOnly 7) ∧
    WatchChRet.eventOnly 7 ≠ WatchChRet.pair 7 3 ∧
    (watch_ch_op stOpen (Except.ok ()) Response.okDefault 8 4 6).sent = [] ∧
    (watch_ch_op stOpen (Except.ok ()) Response.okDefault 8 4 6).startedThread =
      false ∧
    (watch_ch_op stOpen (Except.ok ()) Response.okDefault 8 4 6).st = stOpen := by
  decide

end DicedbPy
